import Mathlib

/-!
Verification of the 7cars estimation tool (`estimation_auto_7cars.py`).

The pricing computation, the currency formatter, the regime dispatch, the
export field lists and the main result branch are embedded below.  Python
float arithmetic is modelled with exact rationals; the numeric literals of
the source (`0.15`, `0.081`, `1.05`, `350`) become the corresponding
rationals.
-/

/-- Constant `MARGE_NETTE = 0.15` from line 8 of the source. -/
def MARGE_NETTE : ℚ := 15 / 100

/-- Constant `FRAIS_FIXES = 350` from line 9 of the source. -/
def FRAIS_FIXES : ℚ := 350

/-- Constant `TVA_TAUX = 0.081` from line 10 of the source. -/
def TVA_TAUX : ℚ := 81 / 1000

/-- The exact regime label tested by line 41 of the source. -/
def tvaMargeLabel : String := "TVA sur marge (achat à un particulier)"

/-- The second option offered by the radio widget at lines 272-278. -/
def tvaStandardLabel : String := "TVA standard (achat à un garage/entreprise)"

/-- The five components of the tuple returned by `calcul_offre_max`
(line 54 of the source): `prix_achat, marge_voulue, tva_etat, info_tva, couts`. -/
structure OffreResult where
  prix_achat : ℚ
  marge_voulue : ℚ
  tva_etat : ℚ
  info_tva : String
  couts : ℚ
  deriving DecidableEq, Repr

/-- Embedding of `calcul_offre_max` (lines 35-54 of the source). -/
def calcul_offre_max (prix_vente frais_remise : ℚ) (type_tva : String) : OffreResult :=
  let couts := FRAIS_FIXES + frais_remise * (105 / 100)
  let marge_voulue := prix_vente * MARGE_NETTE
  if type_tva = tvaMargeLabel then
    let coeff := TVA_TAUX / (1 + TVA_TAUX)
    let marge_brute := (marge_voulue + couts) / (1 - coeff)
    let tva_etat := marge_brute * coeff
    let prix_achat := prix_vente - marge_brute
    ⟨prix_achat, marge_voulue, tva_etat, "TVA sur Marge", couts⟩
  else
    let ht_vente := prix_vente / (1 + TVA_TAUX)
    let ht_achat := ht_vente - (ht_vente * MARGE_NETTE) - couts
    let prix_achat := ht_achat * (1 + TVA_TAUX)
    let tva_etat := prix_vente - ht_vente
    ⟨prix_achat, marge_voulue, tva_etat, "TVA Standard", couts⟩

/-- Checked division: `none` models a Python `ZeroDivisionError`. -/
def qdivChecked (a b : ℚ) : Option ℚ :=
  if b = 0 then none else some (a / b)

/-- Variant of the embedding of `calcul_offre_max` in which every division of
the source is checked: a zero denominator aborts the computation with `none`,
modelling the exception the interpreter would raise. -/
def calcul_offre_max_checked (prix_vente frais_remise : ℚ) (type_tva : String) :
    Option OffreResult :=
  let couts := FRAIS_FIXES + frais_remise * (105 / 100)
  let marge_voulue := prix_vente * MARGE_NETTE
  if type_tva = tvaMargeLabel then do
    let coeff ← qdivChecked TVA_TAUX (1 + TVA_TAUX)
    let marge_brute ← qdivChecked (marge_voulue + couts) (1 - coeff)
    pure ⟨prix_vente - marge_brute, marge_voulue, marge_brute * coeff, "TVA sur Marge", couts⟩
  else do
    let ht_vente ← qdivChecked prix_vente (1 + TVA_TAUX)
    pure ⟨(ht_vente - (ht_vente * MARGE_NETTE) - couts) * (1 + TVA_TAUX),
          marge_voulue, prix_vente - ht_vente, "TVA Standard", couts⟩

/-- Written from the words of the specification of the MARGIN regime:
`vatCoeff = VAT_RATE / (1 + VAT_RATE)`,
`grossMargin = (targetMargin + costs) / (1 - vatCoeff)`,
`vatPayable = grossMargin * vatCoeff`,
`maxPurchasePrice = resalePrice - grossMargin`, with
`targetMargin = resalePrice * 0.15` and `costs = 350 + refurbishmentCost * 1.05`. -/
def computeOffer_MARGIN_spec (resalePrice refurbishmentCost : ℚ) : OffreResult :=
  let targetMargin := resalePrice * (15 / 100)
  let costs := 350 + refurbishmentCost * (105 / 100)
  let vatCoeff := (81 / 1000) / (1 + 81 / 1000)
  let grossMargin := (targetMargin + costs) / (1 - vatCoeff)
  ⟨resalePrice - grossMargin, targetMargin, grossMargin * vatCoeff, "TVA sur Marge", costs⟩

/-- Written from the words of the specification of the STANDARD regime:
`netResale = resalePrice / (1 + VAT_RATE)`,
`netPurchase = netResale - netResale * 0.15 - costs`,
`maxPurchasePrice = netPurchase * (1 + VAT_RATE)`,
`vatPayable = resalePrice - netResale`, with
`costs = 350 + refurbishmentCost * 1.05`. -/
def computeOffer_STANDARD_spec (resalePrice refurbishmentCost : ℚ) : OffreResult :=
  let costs := 350 + refurbishmentCost * (105 / 100)
  let netResale := resalePrice / (1 + 81 / 1000)
  let netPurchase := netResale - (netResale * (15 / 100)) - costs
  ⟨netPurchase * (1 + 81 / 1000), resalePrice * (15 / 100),
   resalePrice - netResale, "TVA Standard", costs⟩

/-- The thirteen fields of the export record schema of the specification:
timestamp, dealership name, brand, model, year, mileage, VAT regime label,
resale price, refurbishment cost, total costs, target margin, VAT payable,
maximum purchase offer. -/
inductive RecField where
  | dateEstimation
  | garage
  | marque
  | modele
  | annee
  | kilometrage
  | origineTVA
  | prixRevente
  | fraisRemise
  | fraisTotaux
  | margeVisee
  | tvaReverser
  | offreMax
  deriving DecidableEq, Repr

/-- The export record schema in the order the specification lists it. -/
def exportSchema : List RecField :=
  [RecField.dateEstimation, RecField.garage, RecField.marque, RecField.modele, RecField.annee,
   RecField.kilometrage, RecField.origineTVA, RecField.prixRevente, RecField.fraisRemise,
   RecField.fraisTotaux, RecField.margeVisee, RecField.tvaReverser, RecField.offreMax]

/-- The fields serialized by the spreadsheet exporter, in the order of the
`data` dictionary at lines 156-170 of the source: Date estimation, Garage,
Marque, Modèle, Année, Kilométrage, Origine TVA, Prix de revente estimé,
Frais remise en état, Frais fixes + sécurité, Marge visée nette,
TVA à reverser, Offre d'achat maximale. -/
def excelFields : List RecField :=
  [RecField.dateEstimation, RecField.garage, RecField.marque, RecField.modele, RecField.annee,
   RecField.kilometrage, RecField.origineTVA, RecField.prixRevente, RecField.fraisRemise,
   RecField.fraisTotaux, RecField.margeVisee, RecField.tvaReverser, RecField.offreMax]

/-- The record fields rendered by the PDF exporter, in reading order of its
cells: the dealership line (line 81), then date, vehicle brand and model,
year, mileage (lines 88-91), resale price, refurbishment cost, regime label
(lines 97-99), maximum offer, target margin, VAT payable, total costs
(lines 105-108). -/
def pdfFields : List RecField :=
  [RecField.garage, RecField.dateEstimation, RecField.marque, RecField.modele, RecField.annee,
   RecField.kilometrage, RecField.prixRevente, RecField.fraisRemise, RecField.origineTVA,
   RecField.offreMax, RecField.margeVisee, RecField.tvaReverser, RecField.fraisTotaux]

/-- The columns of the CSV history row, in the order of the `ligne`
dictionary at lines 131-144 of the source: Date estimation, Marque, Modèle,
Année, Kilométrage, Prix revente, Frais remise, Type TVA, Prix achat max,
Marge nette, TVA, Frais totaux.  Twelve columns: no dealership name. -/
def histoFields : List RecField :=
  [RecField.dateEstimation, RecField.marque, RecField.modele, RecField.annee,
   RecField.kilometrage, RecField.prixRevente, RecField.fraisRemise, RecField.origineTVA,
   RecField.offreMax, RecField.margeVisee, RecField.tvaReverser, RecField.fraisTotaux]

/-- Effect of `enregistrer_historique` on the stored rows (lines 146-152 of
the source): the existing rows are read back and the new row is appended. -/
def enregistrer_historique_rows (prev : List (List RecField)) : List (List RecField) :=
  prev ++ [histoFields]

/-- The user-visible actions of the result column of `main`. -/
inductive UIAction where
  | showError
  | showWarning
  | showResult
  | exportExcel
  | appendHistory
  | showInfo
  deriving DecidableEq, Repr

/-- Embedding of the result branch of `main` (lines 288-364 of the source):
on a click with a non-positive resale price an error is shown; with a
non-positive computed offer a warning is shown; otherwise the result is
rendered and the spreadsheet export is produced.  No other action occurs:
in particular `enregistrer_historique` is never called by `main`. -/
def main_result_actions (calculer : Bool) (prix_vente frais_remise : ℚ)
    (type_tva : String) : List UIAction :=
  if calculer then
    if prix_vente ≤ 0 then [UIAction.showError]
    else
      let r := calcul_offre_max prix_vente frais_remise type_tva
      if r.prix_achat ≤ 0 then [UIAction.showWarning]
      else [UIAction.showResult, UIAction.exportExcel]
  else [UIAction.showInfo]

/-- The apostrophe character used as thousands separator. -/
def apos : Char := Char.ofNat 39

/-- Decimal digits of `n`, least significant first; the fuel argument bounds
the recursion and `n` itself is always enough fuel. -/
def digitsRevAux : ℕ → ℕ → List ℕ
  | 0, _ => []
  | fuel + 1, n => if n = 0 then [] else (n % 10) :: digitsRevAux fuel (n / 10)

/-- Decimal digits of `n`, least significant first. -/
def digitsRev (n : ℕ) : List ℕ :=
  digitsRevAux n n

/-- The decimal digit characters of `n`, least significant first; `0` is
rendered as the single character `0`. -/
def digitCharsRev (n : ℕ) : List Char :=
  if n = 0 then [Char.ofNat 48] else (digitsRev n).map Nat.digitChar

/-- Grouping of a least-significant-first digit list in threes: after every
third digit, if more digits follow, the separator is inserted.  This is the
grouping performed by a comma format specifier. -/
def grpRev (sep : Char) : List Char → ℕ → List Char
  | [], _ => []
  | c :: rest, cnt =>
    if cnt = 3 then sep :: c :: grpRev sep rest 1
    else c :: grpRev sep rest (cnt + 1)

/-- Character-wise embedding of the `.replace(",", "'")` call of line 15 of
the source: each comma becomes an apostrophe, all else is unchanged. -/
def commaRepl (c : Char) : Char :=
  if c = ',' then apos else c

/-- Embedding of `format_chf` (lines 13-15 of the source), restricted to
natural-number amounts: the comma-grouped decimal rendering of the amount,
with each comma replaced by an apostrophe and the suffix appended. -/
def format_chf (n : ℕ) : String :=
  ⟨((grpRev (',') (digitCharsRev n) 0).reverse).map commaRepl⟩ ++ " CHF"

/-- Written from the words of the specification: the integer rendering with
an apostrophe as thousands separator, zero decimal places, and a trailing
currency suffix. -/
def formatCurrency_spec (n : ℕ) : String :=
  ⟨(grpRev apos (digitCharsRev n) 0).reverse⟩ ++ " CHF"

/-- C1: in the MARGIN regime the function returns exactly the spec formulas. -/
theorem margin_regime_matches_spec (pv fr : ℚ) (hpv : 0 < pv) (hfr : 0 ≤ fr) :
    calcul_offre_max pv fr tvaMargeLabel = computeOffer_MARGIN_spec pv fr := by
  simp [calcul_offre_max, computeOffer_MARGIN_spec, MARGE_NETTE, FRAIS_FIXES, TVA_TAUX]

/-- Witness for C1 at the spec example `resalePrice = 22000`,
`refurbishmentCost = 1500`. -/
theorem margin_regime_matches_spec_witness :
    (0 : ℚ) < 22000 ∧ (0 : ℚ) ≤ 1500 ∧
      calcul_offre_max 22000 1500 tvaMargeLabel = computeOffer_MARGIN_spec 22000 1500 :=
  ⟨by norm_num, by norm_num,
    margin_regime_matches_spec 22000 1500 (by norm_num) (by norm_num)⟩

/-- C2: in the STANDARD regime the function returns exactly the spec formulas. -/
theorem standard_regime_matches_spec (pv fr : ℚ) (hpv : 0 < pv) (hfr : 0 ≤ fr) :
    calcul_offre_max pv fr tvaStandardLabel = computeOffer_STANDARD_spec pv fr := by
  have hne : tvaStandardLabel ≠ tvaMargeLabel := by decide
  simp [calcul_offre_max, computeOffer_STANDARD_spec, MARGE_NETTE, FRAIS_FIXES,
    TVA_TAUX, hne]

/-- Witness for C2 at the spec example `resalePrice = 22000`,
`refurbishmentCost = 1500`. -/
theorem standard_regime_matches_spec_witness :
    (0 : ℚ) < 22000 ∧ (0 : ℚ) ≤ 1500 ∧
      calcul_offre_max 22000 1500 tvaStandardLabel = computeOffer_STANDARD_spec 22000 1500 :=
  ⟨by norm_num, by norm_num,
    standard_regime_matches_spec 22000 1500 (by norm_num) (by norm_num)⟩

/-- C3: for every input and every regime string, the costs component is
`350 + refurbishmentCost * 1.05` and the margin component is
`resalePrice * 0.15`; with zero refurbishment cost the costs are exactly 350. -/
theorem costs_and_margin_components :
    (∀ (pv fr : ℚ) (t : String),
        (calcul_offre_max pv fr t).couts = 350 + fr * (105 / 100) ∧
        (calcul_offre_max pv fr t).marge_voulue = pv * (15 / 100)) ∧
    (∀ (pv : ℚ) (t : String), (calcul_offre_max pv 0 t).couts = 350) := by
  constructor
  · intro pv fr t
    unfold calcul_offre_max
    split <;> simp [MARGE_NETTE, FRAIS_FIXES]
  · intro pv t
    unfold calcul_offre_max
    split <;> simp [FRAIS_FIXES]

/-- C4: for positive resale price and nonnegative refurbishment cost, the
checked computation (which aborts on any zero denominator) succeeds for every
regime string and agrees with the total function: no division by zero, no
exception. -/
theorem calcul_offre_max_total (pv fr : ℚ) (t : String) (hpv : 0 < pv) (hfr : 0 ≤ fr) :
    calcul_offre_max_checked pv fr t = some (calcul_offre_max pv fr t) := by
  unfold calcul_offre_max_checked calcul_offre_max qdivChecked
  split
  · have h1 : (1 : ℚ) + TVA_TAUX ≠ 0 := by norm_num [TVA_TAUX]
    have h2 : (1 : ℚ) - TVA_TAUX / (1 + TVA_TAUX) ≠ 0 := by norm_num [TVA_TAUX]
    simp [h1, h2, Option.bind]
  · have h1 : (1 : ℚ) + TVA_TAUX ≠ 0 := by norm_num [TVA_TAUX]
    simp [h1, Option.bind]

/-- Witness for C4 at `resalePrice = 22000`, `refurbishmentCost = 1500`,
MARGIN regime. -/
theorem calcul_offre_max_total_witness :
    (0 : ℚ) < 22000 ∧ (0 : ℚ) ≤ 1500 ∧
      calcul_offre_max_checked 22000 1500 tvaMargeLabel =
        some (calcul_offre_max 22000 1500 tvaMargeLabel) :=
  ⟨by norm_num, by norm_num,
    calcul_offre_max_total 22000 1500 tvaMargeLabel (by norm_num) (by norm_num)⟩

/-- C5: for every regime string and fixed resale price, the returned maximum
purchase price is strictly decreasing in the refurbishment cost. -/
theorem prix_achat_strict_anti (t : String) (pv c1 c2 : ℚ)
    (h0 : 0 ≤ c1) (hlt : c1 < c2) :
    (calcul_offre_max pv c2 t).prix_achat < (calcul_offre_max pv c1 t).prix_achat := by
  unfold calcul_offre_max
  split
  · simp only [MARGE_NETTE, FRAIS_FIXES, TVA_TAUX]
    have hD : (1 : ℚ) - 81 / 1000 / (1 + 81 / 1000) = 1000 / 1081 := by norm_num
    rw [hD, sub_lt_sub_iff_left, div_lt_div_iff₀ (by norm_num) (by norm_num)]
    linarith
  · simp only [MARGE_NETTE, FRAIS_FIXES, TVA_TAUX]
    rw [mul_lt_mul_right (by norm_num : (0 : ℚ) < 1 + 81 / 1000)]
    linarith

/-- Witness for C5: at `resalePrice = 22000`, MARGIN regime, costs 0 and 1. -/
theorem prix_achat_strict_anti_witness :
    (0 : ℚ) ≤ 0 ∧ (0 : ℚ) < 1 ∧
      (calcul_offre_max 22000 1 tvaMargeLabel).prix_achat <
        (calcul_offre_max 22000 0 tvaMargeLabel).prix_achat :=
  ⟨le_refl 0, by norm_num,
    prix_achat_strict_anti tvaMargeLabel 22000 0 1 (le_refl 0) (by norm_num)⟩

/-- C8: the computation is deterministic: two calls with identical inputs
return identical outputs; the function reads nothing but its arguments and
the process-wide constants. -/
theorem calcul_offre_max_deterministic (pv1 pv2 fr1 fr2 : ℚ) (t1 t2 : String)
    (hp : pv1 = pv2) (hf : fr1 = fr2) (ht : t1 = t2) :
    calcul_offre_max pv1 fr1 t1 = calcul_offre_max pv2 fr2 t2 := by
  rw [hp, hf, ht]

/-- Witness for C8 at `resalePrice = 22000`, `refurbishmentCost = 1500`,
MARGIN regime. -/
theorem calcul_offre_max_deterministic_witness :
    calcul_offre_max 22000 1500 tvaMargeLabel = calcul_offre_max 22000 1500 tvaMargeLabel :=
  calcul_offre_max_deterministic 22000 22000 1500 1500 tvaMargeLabel tvaMargeLabel
    rfl rfl rfl

/-- C10: regime dispatch is plain string equality against the exact MARGIN
label: every other regime string is computed with the STANDARD formulas,
labelled "TVA Standard", and raises no error. -/
theorem regime_dispatch_by_string_equality (pv fr : ℚ) (t : String)
    (ht : t ≠ tvaMargeLabel) :
    calcul_offre_max pv fr t = computeOffer_STANDARD_spec pv fr ∧
    (calcul_offre_max pv fr t).info_tva = "TVA Standard" ∧
    calcul_offre_max_checked pv fr t = some (calcul_offre_max pv fr t) := by
  have h1 : (1 : ℚ) + TVA_TAUX ≠ 0 := by norm_num [TVA_TAUX]
  refine ⟨?_, ?_, ?_⟩
  · simp [calcul_offre_max, computeOffer_STANDARD_spec, MARGE_NETTE, FRAIS_FIXES,
      TVA_TAUX, ht]
  · simp [calcul_offre_max, ht]
  · unfold calcul_offre_max_checked calcul_offre_max qdivChecked
    simp [ht, h1, Option.bind]

/-- Witness for C10 at the misspelled regime string "TVA sur Marge". -/
theorem regime_dispatch_by_string_equality_witness :
    "TVA sur Marge" ≠ tvaMargeLabel ∧
      (calcul_offre_max 22000 1500 "TVA sur Marge" = computeOffer_STANDARD_spec 22000 1500 ∧
       (calcul_offre_max 22000 1500 "TVA sur Marge").info_tva = "TVA Standard" ∧
       calcul_offre_max_checked 22000 1500 "TVA sur Marge" =
         some (calcul_offre_max 22000 1500 "TVA sur Marge")) :=
  ⟨by decide, regime_dispatch_by_string_equality 22000 1500 "TVA sur Marge" (by decide)⟩

/-- Every digit produced by `digitsRevAux` is below 10. -/
theorem digitsRevAux_lt_ten (fuel : ℕ) :
    ∀ (n : ℕ), ∀ d ∈ digitsRevAux fuel n, d < 10 := by
  induction fuel with
  | zero => intro n d hd; simp [digitsRevAux] at hd
  | succ f ih =>
    intro n d hd
    unfold digitsRevAux at hd
    split at hd
    · simp at hd
    · rcases List.mem_cons.mp hd with h | h
      · subst h; exact Nat.mod_lt _ (by norm_num)
      · exact ih _ _ h

/-- No character of the digit rendering is a comma. -/
theorem digitCharsRev_ne_comma (n : ℕ) : ∀ c ∈ digitCharsRev n, c ≠ ',' := by
  intro c hc
  unfold digitCharsRev at hc
  split at hc
  · simp at hc; subst hc; decide
  · simp only [digitsRev, List.mem_map] at hc
    obtain ⟨d, hd, rfl⟩ := hc
    have hlt : d < 10 := digitsRevAux_lt_ten n n d hd
    have hall : ∀ d < 10, Nat.digitChar d ≠ ',' := by decide
    exact hall d hlt

/-- On a comma-free list, replacing commas after grouping with a comma gives
the same result as grouping with an apostrophe directly. -/
theorem grpRev_comma_then_repl (l : List Char) (hl : ∀ c ∈ l, c ≠ ',') :
    ∀ cnt, (grpRev (',') l cnt).map commaRepl = grpRev apos l cnt := by
  induction l with
  | nil => intro cnt; simp [grpRev]
  | cons c rest ih =>
    intro cnt
    have hc : c ≠ ',' := hl c (List.mem_cons_self c rest)
    have hrest : ∀ x ∈ rest, x ≠ ',' := fun x hx => hl x (List.mem_cons_of_mem c hx)
    unfold grpRev
    split
    · simp [commaRepl, hc, ih hrest]
    · simp [commaRepl, hc, ih hrest]

/-- C9: the currency formatter produces the integer rendering with an
apostrophe as thousands separator and the trailing currency suffix; in
particular 22000 renders as 22'000 CHF and 1925 as 1'925 CHF. -/
theorem format_chf_renders_currency :
    format_chf 22000 = "22".push apos ++ "000 CHF" ∧
    format_chf 1925 = "1".push apos ++ "925 CHF" ∧
    ∀ n : ℕ, format_chf n = formatCurrency_spec n := by
  refine ⟨by decide, by decide, ?_⟩
  intro n
  unfold format_chf formatCurrency_spec
  rw [List.map_reverse, grpRev_comma_then_repl _ (digitCharsRev_ne_comma n)]

/-- C7: the spreadsheet exporter serializes exactly the export record schema
in order, and the PDF exporter renders exactly the same field set. -/
theorem exporters_serialize_schema :
    excelFields = exportSchema ∧ List.Perm pdfFields exportSchema := by
  exact ⟨rfl, by decide⟩

/-- Counterexample for C6: a completed estimation (positive resale price,
positive computed offer) whose result branch performs no history append;
moreover the history row columns do not match the export record schema. -/
theorem history_claim_counterexample :
    (0 : ℚ) < 22000 ∧
    0 < (calcul_offre_max 22000 1500 tvaMargeLabel).prix_achat ∧
    UIAction.appendHistory ∉ main_result_actions true 22000 1500 tvaMargeLabel ∧
    ¬ List.Perm histoFields exportSchema := by
  have hoffer : 0 < (calcul_offre_max 22000 1500 tvaMargeLabel).prix_achat := by
    simp only [calcul_offre_max, MARGE_NETTE, FRAIS_FIXES, TVA_TAUX, if_pos]
    norm_num
  refine ⟨by norm_num, hoffer, ?_, by decide⟩
  have h1 : ¬ (22000 : ℚ) ≤ 0 := by norm_num
  have h2 : ¬ (calcul_offre_max 22000 1500 tvaMargeLabel).prix_achat ≤ 0 :=
    not_le.mpr hoffer
  simp [main_result_actions, h1, h2]

/-- C6 amended: the history routine, when called, appends exactly one row,
whose columns are the export schema minus the dealership field; but the
result branch of `main` on a completed estimation only renders the result
and produces the spreadsheet export, and never appends to the history. -/
theorem history_routine_unused_by_main (pv fr : ℚ) (t : String)
    (hpv : 0 < pv) (hoffer : 0 < (calcul_offre_max pv fr t).prix_achat) :
    main_result_actions true pv fr t = [UIAction.showResult, UIAction.exportExcel] ∧
    UIAction.appendHistory ∉ main_result_actions true pv fr t ∧
    (∀ prev, (enregistrer_historique_rows prev).length = prev.length + 1) ∧
    List.Perm histoFields (List.erase exportSchema RecField.garage) := by
  have h1 : ¬ pv ≤ 0 := not_le.mpr hpv
  have h2 : ¬ (calcul_offre_max pv fr t).prix_achat ≤ 0 := not_le.mpr hoffer
  refine ⟨?_, ?_, ?_, by decide⟩
  · simp [main_result_actions, h1, h2]
  · simp [main_result_actions, h1, h2]
  · intro prev; simp [enregistrer_historique_rows]

/-- Witness for the amended C6 at `resalePrice = 22000`,
`refurbishmentCost = 1500`, MARGIN regime. -/
theorem history_routine_unused_by_main_witness :
    (0 : ℚ) < 22000 ∧
    0 < (calcul_offre_max 22000 1500 tvaMargeLabel).prix_achat ∧
    (main_result_actions true 22000 1500 tvaMargeLabel =
        [UIAction.showResult, UIAction.exportExcel] ∧
      UIAction.appendHistory ∉ main_result_actions true 22000 1500 tvaMargeLabel ∧
      (∀ prev, (enregistrer_historique_rows prev).length = prev.length + 1) ∧
      List.Perm histoFields (List.erase exportSchema RecField.garage)) := by
  have hoffer : 0 < (calcul_offre_max 22000 1500 tvaMargeLabel).prix_achat := by
    simp only [calcul_offre_max, MARGE_NETTE, FRAIS_FIXES, TVA_TAUX, if_pos]
    norm_num
  exact ⟨by norm_num, hoffer,
    history_routine_unused_by_main 22000 1500 tvaMargeLabel (by norm_num) hoffer⟩
